import Mathlib

/-
Verification development for the template-runner HTTP gateway.

The gateway (src/application.py) authenticates callers through a signed
token, forwards render / run requests to an external orchestration engine
(the template_runner_api service library, treated as an external
collaborator and modelled as a function parameter), and emits logs through
a redaction pipeline (src/logging_setup.py).

Shallow embedding conventions:
- external collaborators (the orchestration engine, the jwt decoder, the
  pydantic response re-validation) are passed in as function parameters;
- Python exceptions are modelled with Except String;
- Python string truthiness (None or empty string are falsy) is modelled
  with Option String and a getD-emptiness test;
- the regex substitutions of the logging formatter are modelled with a
  small executable regex engine covering exactly the constructs the six
  scrub patterns use (literal, dot, character class, greedy one-or-more
  non-word, lazy star), with Python re semantics (leftmost match,
  pattern-directed backtracking, dot and lazy star do not cross newlines,
  backslash-W does match newlines); ASCII word characters.
-/

set_option maxRecDepth 20000

namespace TemplateRunner

/-! ## Data model (template_runner_api.lib.v2.models, as used by the gateway) -/

/-- Request type discriminator of run requests. -/
inductive TemplateRunnerRequestTypeEnum where
  | TEMPLATE_LOOKUP
  | SSH_PASSTHRU
deriving DecidableEq

/-- Payload of POST /run-template, fields as documented in the handler. -/
structure TemplateRunnerApiRequest where
  run_id : String
  request_type : TemplateRunnerRequestTypeEnum
  device_list : List String
  search_criteria : Option String
  operation : String
  section_ : String
  template_overrides : List (String × String)
  jwt : Option String
  use_jwt_from_header : Option Bool
  device_commands : List String
  device_username : Option String
  device_password : Option String
  is_rollback : Bool
deriving DecidableEq

/-- Payload of POST /render-template. -/
structure RenderTemplateRequest where
  device_list : List String
  search_criteria : Option String
  operation : String
  section_ : String
  template_overrides : List (String × String)
  is_rollback : Bool
deriving DecidableEq

/-- Observable outcome of a gateway operation: either the passthrough
result returned to the transport layer, or the error tuple
(message, 500) the handlers produce in their failure branches. -/
inductive ApiResponse where
  | ok (payload : String)
  | errorEnvelope (payload : String) (code : Nat)
deriving DecidableEq

/-- Exception raised by validate_jwt, as fastapi HTTPException. -/
structure HTTPExceptionE where
  status_code : Nat
  detail : String
deriving DecidableEq

/-- Outcome of the external jwt decode call: success, an
ExpiredSignatureError carrying its message, or any other exception
carrying its message. -/
inductive DecodeOutcome where
  | ok
  | expiredSig (msg : String)
  | exn (msg : String)
deriving DecidableEq

/-- Single quote character, built by code point to keep source text plain. -/
def sq : Char := Char.ofNat 39

/-- Python repr of a KeyError argument, e.g. KeyError printed inside an
f-string shows the missing key surrounded by single quotes. -/
def keyErrorText (k : String) : String := String.mk (sq :: k.data ++ [sq])

/-! ## Token validator (validate_jwt, src/application.py lines 56-76) -/

/-- Shallow embedding of validate_jwt. The environment lookups of
JWT_SECRET and JWT_AUDIENCE are modelled as Option values (none raises
KeyError, caught by the generic except branch); the jwt decode call is
a parameter taking token, secret and audience. -/
def validate_jwt (env_jwt_secret env_jwt_audience : Option String)
    (decode : String → String → String → DecodeOutcome)
    (x_auth_token : String) : Except HTTPExceptionE Unit :=
  match env_jwt_secret with
  | none => Except.error ⟨401, "Unauthorized user: " ++ keyErrorText "JWT_SECRET"⟩
  | some jwt_secret =>
    match env_jwt_audience with
    | none => Except.error ⟨401, "Unauthorized user: " ++ keyErrorText "JWT_AUDIENCE"⟩
    | some jwt_audience =>
      match decode x_auth_token jwt_secret jwt_audience with
      | DecodeOutcome.ok => Except.ok ()
      | DecodeOutcome.expiredSig m => Except.error ⟨403, "JWT has expired " ++ m⟩
      | DecodeOutcome.exn m => Except.error ⟨401, "Unauthorized user: " ++ m⟩

/-! ## Request gateway (render_template and run_template handlers) -/

/-- Error text built by the except branches of both handlers. -/
def unexpectedText (e : String) : String :=
  "An unexpected exception occured calling the template runner: " ++ e

/-- Credential rewriting performed by run_template before delegation
(src/application.py lines 179-183): TEMPLATE_LOOKUP always overwrites the
payload jwt with the header token; SSH_PASSTHRU overwrites it only when
device_username is falsy (absent or empty). -/
def forwarded_request (api_request : TemplateRunnerApiRequest)
    (x_auth_token : Option String) : TemplateRunnerApiRequest :=
  if api_request.request_type = TemplateRunnerRequestTypeEnum.TEMPLATE_LOOKUP then
    { api_request with jwt := x_auth_token }
  else
    if api_request.device_username.getD "" = "" then
      { api_request with jwt := x_auth_token }
    else
      api_request

/-- Shallow embedding of the run_template handler body (lines 178-195).
run_templates is the orchestration-engine delegation (service
construction plus run, any raised exception as Except.error); reshape is
the pydantic re-validation of the result (line 190), also fallible. The
engine returns the structured pair (error, result). -/
def run_template
    (run_templates : TemplateRunnerApiRequest → Except String (Option String × String))
    (reshape : String → Except String String)
    (api_request : TemplateRunnerApiRequest)
    (x_auth_token : Option String) : ApiResponse :=
  let fwd := forwarded_request api_request x_auth_token
  match run_templates fwd with
  | Except.error e => ApiResponse.errorEnvelope (unexpectedText e) 500
  | Except.ok (eopt, result) =>
    if eopt.getD "" ≠ "" then
      ApiResponse.errorEnvelope (eopt.getD "") 500
    else
      match reshape result with
      | Except.error e => ApiResponse.errorEnvelope (unexpectedText e) 500
      | Except.ok real_result => ApiResponse.ok real_result

/-- Shallow embedding of the render_template handler body (lines 114-123).
Note the source binds the structured error component to the throwaway
name _err and never inspects it: the engine result is returned whether or
not the error component is set. -/
def render_template
    (render_templates : RenderTemplateRequest → Except String (Option String × String))
    (api_request : RenderTemplateRequest)
    (x_auth_token : Option String) : ApiResponse :=
  match render_templates api_request with
  | Except.error e => ApiResponse.errorEnvelope (unexpectedText e) 500
  | Except.ok (_err, api_result) => ApiResponse.ok api_result

/-! ## Logging setup (setup_logging, src/logging_setup.py lines 59-89) -/

/-- Options passed to logger.add for the stderr sink. -/
structure SinkConfig where
  level : String
  backtrace : Bool
  diagnose : Bool
  enqueue : Bool
  colorize : Bool
deriving DecidableEq

/-- Sink configuration chosen by setup_logging from the LOGURU_LEVEL
environment variable (default INFO): the DEBUG branch enables backtrace,
every other level string disables it. -/
def setup_logging (env_loguru_level : Option String) : SinkConfig :=
  let log_level := env_loguru_level.getD "INFO"
  if log_level = "DEBUG" then
    { level := "DEBUG", backtrace := true, diagnose := true,
      enqueue := true, colorize := true }
  else
    { level := log_level, backtrace := false, diagnose := true,
      enqueue := true, colorize := true }

/-- Standard loguru severity numbers, used to state coarser/finer
comparisons between levels (smaller number means finer). -/
def loguru_level_no : String → Option Nat
  | "TRACE" => some 5
  | "DEBUG" => some 10
  | "INFO" => some 20
  | "SUCCESS" => some 25
  | "WARNING" => some 30
  | "ERROR" => some 40
  | "CRITICAL" => some 50
  | _ => none

/-! ## Redaction engine (LoggingFormatter, src/logging_setup.py lines 9-40)

A small executable regex engine covering exactly the constructs used by
the six scrub patterns. All recursion is structural so the kernel can
evaluate the engine on concrete inputs. -/

/-- Word character in the sense of backslash-w of Python re, restricted
to ASCII (letters, digits, underscore). -/
def isWordChar (c : Char) : Bool := c.isAlphanum || c == '_'

/-- Regex items appearing in the scrub patterns: a literal character, an
unescaped dot (any character except newline), a character class, the
greedy one-or-more non-word quantifier, and the lazy dot-star group. -/
inductive RItem where
  | lit (c : Char)
  | dot
  | cls (cs : List Char)
  | nonWordPlus
  | lazyGroup
deriving DecidableEq

/-- Length of the maximal prefix of non-word characters (the text a
greedy backslash-W-plus first tries to consume). -/
def runLen : List Char → Nat
  | [] => 0
  | c :: cs => if isWordChar c then 0 else runLen cs + 1

/-- Greedy quantifier search: try consuming j characters for j from the
given bound down to 1, succeeding on the first continuation match. k is
the continuation matcher for the rest of the pattern. -/
def greedyLoop (k : List Char → Option Nat) (xs : List Char) : Nat → Option Nat
  | 0 => none
  | j + 1 =>
    match k (xs.drop (j + 1)) with
    | some m => some (j + 1 + m)
    | none => greedyLoop k xs j

/-- Lazy star search: try consuming taken characters (smallest first),
extending one non-newline character at a time while the continuation k
fails; budget bounds the number of extensions. -/
def lazyLoop (k : List Char → Option Nat) (xs : List Char) :
    Nat → Nat → Option Nat
  | taken, budget =>
    match k (xs.drop taken) with
    | some m => some (taken + m)
    | none =>
      match budget with
      | 0 => none
      | b + 1 =>
        match xs.drop taken with
        | [] => none
        | y :: _ => if y == '\n' then none else lazyLoop k xs (taken + 1) b

/-- Match a pattern against a prefix of xs, returning the number of
characters consumed by the leftmost-anchored match under the Python
backtracking strategy (greedy backslash-W-plus, lazy dot-star), or none. -/
def matchF : List RItem → List Char → Option Nat
  | [], _ => some 0
  | RItem.lit c :: ps, xs =>
    match xs with
    | [] => none
    | x :: xs' => if x == c then (matchF ps xs').map (· + 1) else none
  | RItem.dot :: ps, xs =>
    match xs with
    | [] => none
    | x :: xs' => if x == '\n' then none else (matchF ps xs').map (· + 1)
  | RItem.cls cs :: ps, xs =>
    match xs with
    | [] => none
    | x :: xs' => if cs.contains x then (matchF ps xs').map (· + 1) else none
  | RItem.nonWordPlus :: ps, xs => greedyLoop (matchF ps) xs (runLen xs)
  | RItem.lazyGroup :: ps, xs => lazyLoop (matchF ps) xs 0 xs.length

/-- One pass of re.sub: scan left to right; at each position emit the
replacement and skip the matched text on a (necessarily nonempty) match,
else keep the character. Fuel is consumed one unit per emitted position;
fuel equal to the length of the text always suffices, and exhausted fuel
returns the remaining text unchanged. -/
def subFuel (p : List RItem) (repl : List Char) : Nat → List Char → List Char
  | _, [] => []
  | 0, s => s
  | f + 1, x :: xs =>
    match matchF p (x :: xs) with
    | some (n + 1) => repl ++ subFuel p repl f (xs.drop n)
    | _ => x :: subFuel p repl f xs

/-- re.sub of one scrub pattern over a message. -/
def subF (p : List RItem) (repl : List Char) (s : List Char) : List Char :=
  subFuel p repl s.length s

/-- Character class of the scrub patterns, source text a single quote, a
pipe and a double quote. -/
def clsQuote : List Char := [sq, '|', '"']

/-- Pattern for a credential key: dot, the key literally, dot, a colon,
greedy backslash-W-plus, quote class, lazy group, quote class. -/
def keyRule (key : String) : List RItem :=
  RItem.dot :: key.data.map RItem.lit ++
    [RItem.dot, RItem.lit ':', RItem.nonWordPlus, RItem.cls clsQuote,
     RItem.lazyGroup, RItem.cls clsQuote]

/-- Pattern for credentials embedded in URLs: colon slash slash, lazy
group, at sign. -/
def urlRule : List RItem :=
  [RItem.lit ':', RItem.lit '/', RItem.lit '/', RItem.lazyGroup, RItem.lit '@']

/-- Replacement text for a credential key, source text: quoted key,
colon, space, quoted REDACTED marker. -/
def keyRepl (key : String) : List Char :=
  sq :: key.data ++ [sq, ':', ' ', sq] ++ "[REDACTED]".data ++ [sq]

/-- Replacement text for the URL rule. -/
def urlRepl : List Char := "://[REDACTED]@".data

/-- The ordered scrub rules of LoggingFormatter, insertion order of the
scrub_patterns dict. -/
def scrub_patterns : List (List RItem × List Char) :=
  [ (urlRule, urlRepl),
    (keyRule "password", keyRepl "password"),
    (keyRule "secret", keyRepl "secret"),
    (keyRule "jwt", keyRepl "jwt"),
    (keyRule "st2_api_key", keyRepl "st2_api_key"),
    (keyRule "redis_password", keyRepl "redis_password") ]

/-- Scrubbing step of LoggingFormatter.format: apply each scrub rule in
order to the (string) message; the result is what the sink format emits
as the scrubbed message. -/
def scrub_message (message : List Char) : List Char :=
  scrub_patterns.foldl (fun acc pr => subF pr.1 pr.2 acc) message

/-- Prefix test on character lists. -/
def startsWith : List Char → List Char → Bool
  | [], _ => true
  | _ :: _, [] => false
  | x :: xs, y :: ys => x == y && startsWith xs ys

/-- Substring test: does hay contain needle as a contiguous substring. -/
def containsSub : List Char → List Char → Bool
  | needle, [] => startsWith needle []
  | needle, y :: ys => startsWith needle (y :: ys) || containsSub needle ys

/-! ## Concrete instances and scan predicates -/

/-- Scanning predicate: no position of the text matches pattern p. -/
def noMatchAll (p : List RItem) : List Char → Bool
  | [] => true
  | x :: xs => (matchF p (x :: xs)).isNone && noMatchAll p xs

/-- Password key-value message: double-quoted key immediately followed by
the colon, n spaces, then the secret abc123 between quote characters q1
and q2. -/
def pwMsg (n : Nat) (q1 q2 : Char) : List Char :=
  '"' :: ("password".data ++ ('"' :: ':' ::
    (List.replicate n ' ' ++ (q1 :: ("abc123".data ++ [q2])))))

/-- Concrete TEMPLATE_LOOKUP request used to witness C1, payload token
FAKE. -/
def reqC1 : TemplateRunnerApiRequest :=
  { run_id := "r1", request_type := TemplateRunnerRequestTypeEnum.TEMPLATE_LOOKUP,
    device_list := ["d1"], search_criteria := none, operation := "AUDIT",
    section_ := "s", template_overrides := [], jwt := some "FAKE",
    use_jwt_from_header := none, device_commands := [], device_username := none,
    device_password := none, is_rollback := false }

/-- Concrete render request used by C3. -/
def reqC3 : RenderTemplateRequest :=
  { device_list := ["d1"], search_criteria := none, operation := "AUDIT",
    section_ := "s", template_overrides := [], is_rollback := false }

/-- Concrete engine used by C3: a structured outcome with the error
component set. -/
def engC3 : RenderTemplateRequest → Except String (Option String × String) :=
  fun _ => Except.ok (some "db unreachable", "partial-result")

/-- Concrete render request with empty device list and empty search
criterion, used by C4. -/
def reqC4 : RenderTemplateRequest :=
  { device_list := [], search_criteria := none, operation := "AUDIT",
    section_ := "s", template_overrides := [], is_rollback := false }

/-- Concrete run request with empty device list and empty search
criterion, used by C4. -/
def runReqC4 : TemplateRunnerApiRequest :=
  { run_id := "r4", request_type := TemplateRunnerRequestTypeEnum.TEMPLATE_LOOKUP,
    device_list := [], search_criteria := none, operation := "AUDIT",
    section_ := "s", template_overrides := [], jwt := none,
    use_jwt_from_header := none, device_commands := [], device_username := none,
    device_password := none, is_rollback := false }

/-- Engine returning outcome A, used by C4. -/
def engC4A : RenderTemplateRequest → Except String (Option String × String) :=
  fun _ => Except.ok (none, "engine-outcome-A")

/-- Engine returning outcome B, used by C4. -/
def engC4B : RenderTemplateRequest → Except String (Option String × String) :=
  fun _ => Except.ok (none, "engine-outcome-B")

/-- Concrete render request used by the C5 witness. -/
def reqC5r : RenderTemplateRequest :=
  { device_list := ["d5"], search_criteria := none, operation := "CONFIGPUSH",
    section_ := "s", template_overrides := [], is_rollback := false }

/-- Concrete run request used by the C5 witness. -/
def reqC5q : TemplateRunnerApiRequest :=
  { run_id := "r5", request_type := TemplateRunnerRequestTypeEnum.SSH_PASSTHRU,
    device_list := ["d5"], search_criteria := none, operation := "AUDIT",
    section_ := "s", template_overrides := [], jwt := none,
    use_jwt_from_header := none, device_commands := ["show version"],
    device_username := none, device_password := none, is_rollback := false }

/-- Concrete SSH_PASSTHRU request without a username, used by C6. -/
def reqC6a : TemplateRunnerApiRequest :=
  { run_id := "r6", request_type := TemplateRunnerRequestTypeEnum.SSH_PASSTHRU,
    device_list := ["d6"], search_criteria := none, operation := "AUDIT",
    section_ := "s", template_overrides := [], jwt := some "PAYLOAD",
    use_jwt_from_header := none, device_commands := ["show run"],
    device_username := none, device_password := none, is_rollback := false }

/-- Concrete SSH_PASSTHRU request with a username, used by C6. -/
def reqC6b : TemplateRunnerApiRequest :=
  { run_id := "r6", request_type := TemplateRunnerRequestTypeEnum.SSH_PASSTHRU,
    device_list := ["d6"], search_criteria := none, operation := "AUDIT",
    section_ := "s", template_overrides := [], jwt := some "PAYLOAD",
    use_jwt_from_header := none, device_commands := ["show run"],
    device_username := some "admin", device_password := some "pw",
    is_rollback := false }

/-- Concrete run request used by the C10 witness. -/
def reqC10 : TemplateRunnerApiRequest :=
  { run_id := "r10", request_type := TemplateRunnerRequestTypeEnum.TEMPLATE_LOOKUP,
    device_list := ["d"], search_criteria := none, operation := "AUDIT",
    section_ := "s", template_overrides := [], jwt := some "T1",
    use_jwt_from_header := some false, device_commands := [],
    device_username := none, device_password := none, is_rollback := false }

/-- Message showing non-idempotence of the scrub chain: the secret rule
rewrites its tail into canonical single-quoted form, which only then
forms a match for the earlier password rule, so a second pass rewrites
again. -/
def msgC8 : List Char := "_password_: -secret-: ".data ++ ['"', 'k', '"']

/-- Message of C7 with zero whitespace after the colon. -/
def msgC7 : List Char :=
  '"' :: "password".data ++ ['"', ':', '"'] ++ "abc123".data ++ ['"']

/-! ## Helper lemmas -/

theorem startsWith_self (l : List Char) : startsWith l l = true := by
  induction l with
  | nil => rfl
  | cons x xs ih => simp [startsWith, ih]

theorem containsSub_self (l : List Char) : containsSub l l = true := by
  cases l with
  | nil => rfl
  | cons x xs => simp [containsSub, startsWith_self]

theorem containsSub_append_left (t p : List Char) :
    containsSub t (p ++ t) = true := by
  induction p with
  | nil => simpa using containsSub_self t
  | cons x xs ih => simp [containsSub, ih]

theorem subFuel_of_noMatchAll (p : List RItem) (repl : List Char) (f : Nat)
    (s : List Char) (h : noMatchAll p s = true) : subFuel p repl f s = s := by
  induction f generalizing s with
  | zero => cases s <;> rfl
  | succ f ih =>
    cases s with
    | nil => rfl
    | cons x xs =>
      simp only [noMatchAll, Bool.and_eq_true, Option.isNone_iff_eq_none] at h
      simp [subFuel, h.1, ih xs h.2]

theorem subF_of_noMatchAll (p : List RItem) (repl : List Char)
    (s : List Char) (h : noMatchAll p s = true) : subF p repl s = s :=
  subFuel_of_noMatchAll p repl s.length s h

theorem matchF_url_not_colon (x : Char) (xs : List Char)
    (h : (x == ':') = false) : matchF urlRule (x :: xs) = none := by
  simp [urlRule, matchF, h]

theorem matchF_url_colon_not_slash (y : Char) (ys : List Char)
    (h : (y == '/') = false) : matchF urlRule (':' :: y :: ys) = none := by
  simp [urlRule, matchF, h]

theorem noMatchAll_url_tail (q1 q2 : Char)
    (h1 : q1 = sq ∨ q1 = '"') (h2 : q2 = sq ∨ q2 = '"') :
    noMatchAll urlRule (q1 :: ("abc123".data ++ [q2])) = true := by
  rcases h1 with h1 | h1 <;> rcases h2 with h2 | h2 <;> subst h1 <;> subst h2 <;>
    decide

theorem noMatchAll_url_spaces (k : Nat) (t : List Char)
    (ht : noMatchAll urlRule t = true) :
    noMatchAll urlRule (List.replicate k ' ' ++ t) = true := by
  induction k with
  | zero => simpa using ht
  | succ k ih =>
    rw [List.replicate_succ, List.cons_append]
    have hm := matchF_url_not_colon ' ' (List.replicate k ' ' ++ t) (by decide)
    simp [noMatchAll, hm, ih]

theorem noMatchAll_url_pwMsg (m : Nat) (q1 q2 : Char)
    (h1 : q1 = sq ∨ q1 = '"') (h2 : q2 = sq ∨ q2 = '"') :
    noMatchAll urlRule (pwMsg (m + 1) q1 q2) = true := by
  have hshape : pwMsg (m + 1) q1 q2 =
      '"' :: 'p' :: 'a' :: 's' :: 's' :: 'w' :: 'o' :: 'r' :: 'd' :: '"' :: ':' ::
        (List.replicate (m + 1) ' ' ++ (q1 :: ("abc123".data ++ [q2]))) := rfl
  have hsp : noMatchAll urlRule
      (List.replicate (m + 1) ' ' ++ (q1 :: ("abc123".data ++ [q2]))) = true :=
    noMatchAll_url_spaces (m + 1) _ (noMatchAll_url_tail q1 q2 h1 h2)
  have hcolon : matchF urlRule
      (':' :: (List.replicate (m + 1) ' ' ++ (q1 :: ("abc123".data ++ [q2])))) =
        none := by
    rw [List.replicate_succ, List.cons_append]
    exact matchF_url_colon_not_slash ' ' _ (by decide)
  rw [hshape]
  simp only [noMatchAll, Bool.and_eq_true, Option.isNone_iff_eq_none]
  refine ⟨matchF_url_not_colon _ _ (by decide), ?_⟩
  refine ⟨matchF_url_not_colon _ _ (by decide), ?_⟩
  refine ⟨matchF_url_not_colon _ _ (by decide), ?_⟩
  refine ⟨matchF_url_not_colon _ _ (by decide), ?_⟩
  refine ⟨matchF_url_not_colon _ _ (by decide), ?_⟩
  refine ⟨matchF_url_not_colon _ _ (by decide), ?_⟩
  refine ⟨matchF_url_not_colon _ _ (by decide), ?_⟩
  refine ⟨matchF_url_not_colon _ _ (by decide), ?_⟩
  refine ⟨matchF_url_not_colon _ _ (by decide), ?_⟩
  refine ⟨matchF_url_not_colon _ _ (by decide), ?_⟩
  refine ⟨hcolon, matchF_url_not_colon _ _ (by decide), ?_⟩
  exact noMatchAll_url_spaces m _ (noMatchAll_url_tail q1 q2 h1 h2)

theorem runLen_replicate_space (k : Nat) (l : List Char) :
    runLen (List.replicate k ' ' ++ l) = k + runLen l := by
  induction k with
  | zero => simp
  | succ k ih =>
    rw [List.replicate_succ, List.cons_append]
    simp only [runLen, ih, (by decide : isWordChar ' ' = false),
      Bool.false_eq_true, if_false]
    omega

theorem runLen_quote_secret (q : Char) (l : List Char)
    (hq : isWordChar q = false) : runLen (q :: 'a' :: l) = 1 := by
  simp [runLen, hq, (by decide : isWordChar 'a' = true)]

theorem drop_replicate_append (k j : Nat) (l : List Char) :
    (List.replicate k ' ' ++ l).drop (k + j) = l.drop j := by
  have h : (List.replicate k ' ' ++ l).drop k = l := by
    have hd := List.drop_left (List.replicate k ' ') l
    rwa [List.length_replicate] at hd
  rw [← List.drop_drop, h]

theorem matchF_cls_head_none (ps : List RItem) (x : Char) (l : List Char)
    (h : x ∉ clsQuote) :
    matchF (RItem.cls clsQuote :: ps) (x :: l) = none := by
  simp [matchF, h]

theorem matchF_cls_head_some (ps : List RItem) (x : Char) (l : List Char)
    (h : x ∈ clsQuote) :
    matchF (RItem.cls clsQuote :: ps) (x :: l) =
      (matchF ps l).map (· + 1) := by
  simp [matchF, h]

theorem matchF_dot_step (ps : List RItem) (x : Char) (l : List Char)
    (h : (x == '\n') = false) :
    matchF (RItem.dot :: ps) (x :: l) = (matchF ps l).map (· + 1) := by
  simp [matchF, h]

theorem matchF_lit_step (ps : List RItem) (c : Char) (l : List Char) :
    matchF (RItem.lit c :: ps) (c :: l) = (matchF ps l).map (· + 1) := by
  simp [matchF]

theorem matchF_nwp_step (ps : List RItem) (xs : List Char) :
    matchF (RItem.nonWordPlus :: ps) xs =
      greedyLoop (matchF ps) xs (runLen xs) := rfl

theorem matchF_lit_chain (cs : List Char) (ps : List RItem) (l : List Char) :
    matchF (cs.map RItem.lit ++ ps) (cs ++ l) =
      (matchF ps l).map (· + cs.length) := by
  induction cs with
  | nil =>
    simp only [List.map_nil, List.nil_append, List.length_nil]
    cases matchF ps l <;> simp
  | cons c cs ih =>
    rw [List.map_cons, List.cons_append, List.cons_append, matchF_lit_step, ih]
    cases matchF ps l with
    | none => rfl
    | some v =>
      simp only [Option.map_some', Option.some.injEq, List.length_cons]
      omega

theorem greedy_pw (m : Nat) (q1 q2 : Char)
    (h1 : q1 = sq ∨ q1 = '"') (h2 : q2 = sq ∨ q2 = '"') :
    greedyLoop
        (matchF [RItem.cls clsQuote, RItem.lazyGroup, RItem.cls clsQuote])
        (List.replicate (m + 1) ' ' ++ q1 :: ("abc123".data ++ [q2]))
        (m + 1 + 1) =
      some (m + 9) := by
  have hdrop1 :
      (List.replicate (m + 1) ' ' ++ q1 :: ("abc123".data ++ [q2])).drop
          (m + 1 + 1) =
        "abc123".data ++ [q2] :=
    drop_replicate_append (m + 1) 1 (q1 :: ("abc123".data ++ [q2]))
  have hdrop2 :
      (List.replicate (m + 1) ' ' ++ q1 :: ("abc123".data ++ [q2])).drop
          (m + 1) =
        q1 :: ("abc123".data ++ [q2]) := by
    have hd := drop_replicate_append (m + 1) 0 (q1 :: ("abc123".data ++ [q2]))
    simpa using hd
  have hfail :
      matchF [RItem.cls clsQuote, RItem.lazyGroup, RItem.cls clsQuote]
        ("abc123".data ++ [q2]) = none :=
    matchF_cls_head_none _ 'a' _ (by decide)
  have hok :
      matchF [RItem.cls clsQuote, RItem.lazyGroup, RItem.cls clsQuote]
        (q1 :: ("abc123".data ++ [q2])) = some 8 := by
    have hlazy :
        matchF [RItem.lazyGroup, RItem.cls clsQuote] ("abc123".data ++ [q2]) =
          some 7 := by
      rcases h2 with h2 | h2 <;> subst h2 <;> decide
    have hq1 : q1 ∈ clsQuote := by
      rcases h1 with h1 | h1 <;> subst h1 <;> decide
    rw [matchF_cls_head_some _ _ _ hq1, hlazy]
    rfl
  simp only [greedyLoop, hdrop1, hfail, hdrop2, hok, Option.some.injEq]

theorem matchF_pw_pwMsg (m : Nat) (q1 q2 : Char)
    (h1 : q1 = sq ∨ q1 = '"') (h2 : q2 = sq ∨ q2 = '"') :
    matchF (keyRule "password") (pwMsg (m + 1) q1 q2) = some (m + 20) := by
  have hshape : pwMsg (m + 1) q1 q2 =
      '"' :: ("password".data ++ ('"' :: ':' ::
        (List.replicate (m + 1) ' ' ++ q1 :: ("abc123".data ++ [q2])))) := rfl
  have hkey : keyRule "password" =
      RItem.dot :: ("password".data.map RItem.lit ++
        [RItem.dot, RItem.lit ':', RItem.nonWordPlus, RItem.cls clsQuote,
         RItem.lazyGroup, RItem.cls clsQuote]) := rfl
  have hrun : runLen (List.replicate (m + 1) ' ' ++ q1 :: ("abc123".data ++ [q2])) =
      m + 1 + 1 := by
    have hq1 : isWordChar q1 = false := by
      rcases h1 with h1 | h1 <;> subst h1 <;> decide
    rw [show ("abc123".data ++ [q2]) = 'a' :: ("bc123".data ++ [q2]) from rfl,
      runLen_replicate_space, runLen_quote_secret q1 _ hq1]
  have htail :
      matchF [RItem.dot, RItem.lit ':', RItem.nonWordPlus, RItem.cls clsQuote,
          RItem.lazyGroup, RItem.cls clsQuote]
        ('"' :: ':' ::
          (List.replicate (m + 1) ' ' ++ q1 :: ("abc123".data ++ [q2]))) =
        some (m + 11) := by
    rw [matchF_dot_step _ _ _ (by decide), matchF_lit_step, matchF_nwp_step,
      hrun, greedy_pw m q1 q2 h1 h2]
    simp only [Option.map_some', Option.some.injEq]
  rw [hshape, hkey, matchF_dot_step _ _ _ (by decide),
    matchF_lit_chain "password".data _ _, htail]
  simp only [Option.map_some', Option.some.injEq,
    (by decide : ("password".data).length = 8)]

/-- Record-update commutation for the credential rewriting: the
use_jwt_from_header field rides along untouched. -/
theorem forwarded_request_flag (req : TemplateRunnerApiRequest)
    (b : Option Bool) (tok : Option String) :
    forwarded_request { req with use_jwt_from_header := b } tok =
      { forwarded_request req tok with use_jwt_from_header := b } := by
  rcases req with ⟨_, _, _, _, _, _, _, _, _, _, _, _, _⟩
  simp only [forwarded_request]
  split_ifs <;> rfl

/-! ## Claim theorems -/

/-- C1: for every TEMPLATE_LOOKUP run request with caller-supplied token
T1 in the payload jwt field and session token T2 in the x-auth-token
header, the credential forwarded to the orchestration engine is always
T2 and never T1: the handler overwrites the payload jwt with the header
token before delegation. -/
theorem c1_lookup_always_forwards_header_token
    (req : TemplateRunnerApiRequest) (t1 t2 : String)
    (hty : req.request_type = TemplateRunnerRequestTypeEnum.TEMPLATE_LOOKUP)
    (hjwt : req.jwt = some t1) :
    (forwarded_request req (some t2)).jwt = some t2 ∧
      (t1 ≠ t2 → (forwarded_request req (some t2)).jwt ≠ some t1) := by
  constructor
  · simp [forwarded_request, hty]
  · intro hne
    simp only [forwarded_request, hty, if_pos]
    intro hcontra
    exact hne (Option.some_injective _ hcontra).symm

/-- Witness for C1: at the concrete request the forwarded credential is
the session token REAL and not the payload token FAKE. -/
theorem c1_witness :
    (forwarded_request reqC1 (some "REAL")).jwt = some "REAL" ∧
      (forwarded_request reqC1 (some "REAL")).jwt ≠ some "FAKE" :=
  ⟨(c1_lookup_always_forwards_header_token reqC1 "FAKE" "REAL" rfl rfl).1,
   (c1_lookup_always_forwards_header_token reqC1 "FAKE" "REAL" rfl rfl).2
     (by decide)⟩

/-- C2: validate_jwt returns without raising on a successful decode,
raises status 403 with a detail including the underlying expiry message
on ExpiredSignatureError, raises status 401 on any other decode failure,
and raises status 401 when the secret or audience environment variable is
missing. -/
theorem c2_validate_jwt_taxonomy
    (es ea : Option String) (dec : String → String → String → DecodeOutcome)
    (tok : String) :
    (∀ s a, es = some s → ea = some a → dec tok s a = DecodeOutcome.ok →
        validate_jwt es ea dec tok = Except.ok ())
  ∧ (∀ s a m, es = some s → ea = some a →
        dec tok s a = DecodeOutcome.expiredSig m →
        validate_jwt es ea dec tok =
            Except.error ⟨403, "JWT has expired " ++ m⟩
          ∧ containsSub m.data ("JWT has expired " ++ m).data = true)
  ∧ (∀ s a m, es = some s → ea = some a → dec tok s a = DecodeOutcome.exn m →
        validate_jwt es ea dec tok =
          Except.error ⟨401, "Unauthorized user: " ++ m⟩)
  ∧ (es = none ∨ ea = none →
        ∃ d, validate_jwt es ea dec tok = Except.error ⟨401, d⟩) := by
  refine ⟨?_, ?_, ?_, ?_⟩
  · intro s a hs ha hdec
    subst hs; subst ha
    simp [validate_jwt, hdec]
  · intro s a m hs ha hdec
    subst hs; subst ha
    refine ⟨by simp [validate_jwt, hdec], ?_⟩
    rw [String.data_append]
    exact containsSub_append_left m.data _
  · intro s a m hs ha hdec
    subst hs; subst ha
    simp [validate_jwt, hdec]
  · intro h
    rcases h with h | h
    · subst h
      exact ⟨_, rfl⟩
    · subst h
      cases es <;> exact ⟨_, rfl⟩

/-- Witness for C2: with the environment present and a decoder reporting
an expired signature, validation raises 403 carrying the expiry text. -/
theorem c2_witness :
    validate_jwt (some "k") (some "aud")
        (fun _ _ _ => DecodeOutcome.expiredSig "Signature has expired.") "tok" =
      Except.error ⟨403, "JWT has expired " ++ "Signature has expired."⟩ :=
  ((c2_validate_jwt_taxonomy (some "k") (some "aud")
      (fun _ _ _ => DecodeOutcome.expiredSig "Signature has expired.") "tok").2.1
    "k" "aud" "Signature has expired." rfl rfl rfl).1

/-- C3 counterexample: when the orchestration engine returns a pair with
the error component set, render_template does not respond with a
status-ERROR envelope holding the stringified error; it passes the
result component through unchanged (the handler binds the error to a
throwaway name and never inspects it). -/
theorem c3_counterexample :
    engC3 reqC3 = Except.ok (some "db unreachable", "partial-result")
  ∧ render_template engC3 reqC3 (some "tok") = ApiResponse.ok "partial-result"
  ∧ render_template engC3 reqC3 (some "tok") ≠
      ApiResponse.errorEnvelope "db unreachable" 500 := by
  refine ⟨rfl, rfl, by decide⟩

/-- C3 amended: render_template ignores the structured error component
entirely: whenever delegation returns a pair (error, result), the result
is passed through unchanged whether or not error is set; only a raised
exception produces a status-ERROR envelope. -/
theorem c3_render_ignores_structured_error
    (render_templates : RenderTemplateRequest → Except String (Option String × String))
    (req : RenderTemplateRequest) (tok : Option String) :
    (∀ eopt res, render_templates req = Except.ok (eopt, res) →
        render_template render_templates req tok = ApiResponse.ok res)
  ∧ (∀ e, render_templates req = Except.error e →
        render_template render_templates req tok =
          ApiResponse.errorEnvelope (unexpectedText e) 500) := by
  constructor
  · intro eopt res h
    simp [render_template, h]
  · intro e h
    simp [render_template, h]

/-- Witness for C3 amended at the concrete engine with error set. -/
theorem c3_witness :
    render_template engC3 reqC3 none = ApiResponse.ok "partial-result" :=
  (c3_render_ignores_structured_error engC3 reqC3 none).1
    (some "db unreachable") "partial-result" rfl

/-- C4 counterexample: a render request with empty device list and empty
search criterion is not rejected before delegation: the gateway response
is the engine passthrough, not an error envelope, and it changes when the
engine outcome changes, so the orchestration engine is consulted. -/
theorem c4_counterexample :
    reqC4.device_list = [] ∧ reqC4.search_criteria = none
  ∧ render_template engC4A reqC4 (some "tok") = ApiResponse.ok "engine-outcome-A"
  ∧ render_template engC4A reqC4 (some "tok") ≠
      render_template engC4B reqC4 (some "tok") := by
  refine ⟨rfl, rfl, rfl, by decide⟩

/-- C4 amended: the gateway performs no device-list / search-criterion
validation at all: even a request with both empty is delegated, and the
response observably depends on the engine outcome, for render and for
run alike. -/
theorem c4_no_gateway_validation
    (rreq : RenderTemplateRequest) (qreq : TemplateRunnerApiRequest)
    (tok : Option String) (a b : String) (hab : a ≠ b)
    (h1 : rreq.device_list = []) (h2 : rreq.search_criteria = none)
    (h3 : qreq.device_list = []) (h4 : qreq.search_criteria = none) :
    render_template (fun _ => Except.ok (none, a)) rreq tok = ApiResponse.ok a
  ∧ render_template (fun _ => Except.ok (none, a)) rreq tok ≠
      render_template (fun _ => Except.ok (none, b)) rreq tok
  ∧ run_template (fun _ => Except.ok (none, a)) Except.ok qreq tok =
      ApiResponse.ok a
  ∧ run_template (fun _ => Except.ok (none, a)) Except.ok qreq tok ≠
      run_template (fun _ => Except.ok (none, b)) Except.ok qreq tok := by
  refine ⟨rfl, ?_, rfl, ?_⟩
  · intro hcontra
    simp only [render_template, ApiResponse.ok.injEq] at hcontra
    exact hab hcontra
  · intro hcontra
    simp only [run_template] at hcontra
    simp only [Option.getD_none, ne_eq, not_true_eq_false, ite_false,
      if_neg, ApiResponse.ok.injEq] at hcontra
    exact hab hcontra

/-- Witness for C4 amended at the concrete empty request pair. -/
theorem c4_witness :
    render_template engC4A reqC4 (some "tok") = ApiResponse.ok "engine-outcome-A"
  ∧ render_template engC4A reqC4 (some "tok") ≠
      render_template engC4B reqC4 (some "tok") := by
  have h := c4_no_gateway_validation reqC4 runReqC4 (some "tok")
    "engine-outcome-A" "engine-outcome-B" (by decide) rfl rfl rfl rfl
  exact ⟨h.1, h.2.1⟩

/-- C5: every exception raised during handling, in render or run, other
than the structured (error, result) outcome, is caught at the gateway
boundary and converted to a status-ERROR envelope whose payload contains
the exception text: an exception during render delegation, during run
delegation, or during the pydantic reshaping of the run result. No
exception escapes: the handlers are total functions into ApiResponse. -/
theorem c5_exceptions_converted
    (rend : RenderTemplateRequest → Except String (Option String × String))
    (run : TemplateRunnerApiRequest → Except String (Option String × String))
    (reshape : String → Except String String)
    (rreq : RenderTemplateRequest) (qreq : TemplateRunnerApiRequest)
    (tok : Option String) (e : String) :
    (rend rreq = Except.error e →
        render_template rend rreq tok =
            ApiResponse.errorEnvelope (unexpectedText e) 500
          ∧ containsSub e.data (unexpectedText e).data = true)
  ∧ (run (forwarded_request qreq tok) = Except.error e →
        run_template run reshape qreq tok =
          ApiResponse.errorEnvelope (unexpectedText e) 500)
  ∧ (∀ res, run (forwarded_request qreq tok) = Except.ok (none, res) →
        reshape res = Except.error e →
        run_template run reshape qreq tok =
          ApiResponse.errorEnvelope (unexpectedText e) 500) := by
  refine ⟨?_, ?_, ?_⟩
  · intro h
    refine ⟨by simp [render_template, h], ?_⟩
    unfold unexpectedText
    rw [String.data_append]
    exact containsSub_append_left e.data _
  · intro h
    simp [run_template, h]
  · intro res hrun hre
    simp [run_template, hrun, hre]

/-- Witness for C5: a raising render engine and a raising reshape both
surface as error envelopes carrying the exception text. -/
theorem c5_witness :
    render_template (fun _ => Except.error "boom") reqC5r (some "tok") =
        ApiResponse.errorEnvelope (unexpectedText "boom") 500
  ∧ run_template (fun _ => Except.ok (none, "res"))
        (fun _ => Except.error "pydantic validation failed") reqC5q (some "tok") =
      ApiResponse.errorEnvelope (unexpectedText "pydantic validation failed") 500 :=
  ⟨((c5_exceptions_converted (fun _ => Except.error "boom")
      (fun _ => Except.ok (none, "res"))
      (fun _ => Except.error "pydantic validation failed")
      reqC5r reqC5q (some "tok") "boom").1 rfl).1,
   (c5_exceptions_converted (fun _ => Except.error "boom")
      (fun _ => Except.ok (none, "res"))
      (fun _ => Except.error "pydantic validation failed")
      reqC5r reqC5q (some "tok") "pydantic validation failed").2.2
     "res" rfl rfl⟩

/-- C6: for an SSH_PASSTHRU run request, when the payload supplies no
device username (absent or empty, the Python falsiness test) the
forwarded credential is the session token from the header; when a
nonempty username is supplied the request is forwarded completely
unchanged, so the payload credential fields are used as-is and the
session token is not substituted. -/
theorem c6_passthru_credentials
    (req : TemplateRunnerApiRequest) (t2 : String)
    (hty : req.request_type = TemplateRunnerRequestTypeEnum.SSH_PASSTHRU) :
    (req.device_username.getD "" = "" →
        (forwarded_request req (some t2)).jwt = some t2)
  ∧ (∀ u, req.device_username = some u → u ≠ "" →
        forwarded_request req (some t2) = req) := by
  constructor
  · intro h
    simp [forwarded_request, hty, h]
  · intro u hu hne
    unfold forwarded_request
    rw [hty]
    simp [hu, hne]

/-- Witness for C6 at the two concrete requests: without a username the
header token REAL is forwarded; with username admin the request is
untouched. -/
theorem c6_witness :
    (forwarded_request reqC6a (some "REAL")).jwt = some "REAL"
  ∧ forwarded_request reqC6b (some "REAL") = reqC6b :=
  ⟨(c6_passthru_credentials reqC6a "REAL" rfl).1 rfl,
   (c6_passthru_credentials reqC6b "REAL" rfl).2 "admin" rfl (by decide)⟩

/-- C9 counterexample: TRACE is a finer level than DEBUG (loguru severity
5 versus 10), yet setup_logging configures the sink with backtrace
disabled for it, contradicting the claim that levels DEBUG or finer
include stack traces. -/
theorem c9_counterexample :
    loguru_level_no "TRACE" = some 5 ∧ loguru_level_no "DEBUG" = some 10
  ∧ (5 : Nat) < 10 ∧ (setup_logging (some "TRACE")).backtrace = false := by
  refine ⟨rfl, rfl, by decide, rfl⟩

/-- C9 amended: the sink enables backtraces exactly when the configured
level string equals DEBUG; every level coarser than DEBUG disables them,
and so does the finer TRACE level. -/
theorem c9_backtrace_iff_debug (lvl : Option String) :
    ((setup_logging lvl).backtrace = true ↔ lvl.getD "INFO" = "DEBUG")
  ∧ (∀ n, loguru_level_no (lvl.getD "INFO") = some n → 10 < n →
        (setup_logging lvl).backtrace = false) := by
  constructor
  · unfold setup_logging
    by_cases h : lvl.getD "INFO" = "DEBUG" <;> simp [h]
  · intro n hn hlt
    unfold setup_logging
    by_cases h : lvl.getD "INFO" = "DEBUG"
    · rw [h] at hn
      simp only [loguru_level_no, Option.some.injEq] at hn
      omega
    · simp [h]

/-- Witness for C9 amended: WARNING (severity 30, coarser than DEBUG)
yields a sink with backtrace disabled. -/
theorem c9_witness : (setup_logging (some "WARNING")).backtrace = false :=
  (c9_backtrace_iff_debug (some "WARNING")).2 30 rfl (by decide)

/-- C10: the use_jwt_from_header field is never read by the handler: for
any two run requests identical except for that field, the forwarded
credential is the same, and, for any engine whose outcome does not
depend on that (otherwise opaque) field, the produced response is the
same, for either request type. -/
theorem c10_flag_has_no_effect
    (run : TemplateRunnerApiRequest → Except String (Option String × String))
    (reshape : String → Except String String)
    (req : TemplateRunnerApiRequest) (b : Option Bool) (tok : Option String) :
    (forwarded_request { req with use_jwt_from_header := b } tok).jwt =
      (forwarded_request req tok).jwt
  ∧ ((∀ r c, run { r with use_jwt_from_header := c } = run r) →
      run_template run reshape { req with use_jwt_from_header := b } tok =
        run_template run reshape req tok) := by
  constructor
  · rw [forwarded_request_flag]
  · intro hrun
    simp only [run_template, forwarded_request_flag]
    rw [hrun]

/-- Witness for C10: flipping use_jwt_from_header to true on the concrete
request leaves both the forwarded credential and the response of a
constant engine unchanged. -/
theorem c10_witness :
    (forwarded_request { reqC10 with use_jwt_from_header := some true }
        (some "T2")).jwt = (forwarded_request reqC10 (some "T2")).jwt
  ∧ run_template (fun _ => Except.ok (none, "res")) Except.ok
        { reqC10 with use_jwt_from_header := some true } (some "T2") =
      run_template (fun _ => Except.ok (none, "res")) Except.ok reqC10
        (some "T2") :=
  ⟨(c10_flag_has_no_effect (fun _ => Except.ok (none, "res")) Except.ok reqC10
      (some true) (some "T2")).1,
   (c10_flag_has_no_effect (fun _ => Except.ok (none, "res")) Except.ok reqC10
      (some true) (some "T2")).2 (fun _ _ => rfl)⟩

/-- C8 counterexample: applying the ordered scrub substitutions twice to
this message yields a different text than applying them once, so the
redaction function is not idempotent. -/
theorem c8_counterexample :
    scrub_message (scrub_message msgC8) ≠ scrub_message msgC8 := by decide

/-- C8 amended: idempotence fails in general because a later rule can
rewrite text into a shape an earlier rule then matches on the next pass;
what does hold is that the canonical replacement texts of the url,
password, secret, jwt and st2_api_key rules are each fixed points of the
whole ordered substitution chain, so re-scrubbing text already redacted
by those rules changes nothing. (The redis_password replacement is not a
fixed point: the earlier password rule rewrites it.) -/
theorem c8_replacement_fixed_points :
    scrub_message urlRepl = urlRepl
  ∧ scrub_message (keyRepl "password") = keyRepl "password"
  ∧ scrub_message (keyRepl "secret") = keyRepl "secret"
  ∧ scrub_message (keyRepl "jwt") = keyRepl "jwt"
  ∧ scrub_message (keyRepl "st2_api_key") = keyRepl "st2_api_key" := by
  refine ⟨by decide, by decide, by decide, by decide, by decide⟩

/-- C7 counterexample: with no whitespace between the colon and the
opening quote the password scrub pattern cannot match (its backslash-W
quantifier must consume at least one character and backtracking cannot
place the quote class), so the message passes through scrubbing
unchanged and the emitted text still contains abc123. -/
theorem c7_counterexample :
    scrub_message msgC7 = msgC7
  ∧ containsSub "abc123".data (scrub_message msgC7) = true := by
  refine ⟨by decide, by decide⟩

/-- C7 amended: for a message consisting of a password key-value pair in
which the quoted key is immediately followed by the colon and at least
one space separates the colon from the opening quote, with single or
double quotes in any combination around the secret, scrubbing rewrites
the pair to the canonical redacted text and the emitted message never
contains abc123. (Zero whitespace after the colon, or whitespace before
it, defeats the pattern, as the counterexample shows.) -/
theorem c7_redaction_with_whitespace (n : Nat) (q1 q2 : Char)
    (hn : 1 ≤ n) (h1 : q1 = sq ∨ q1 = '"') (h2 : q2 = sq ∨ q2 = '"') :
    scrub_message (pwMsg n q1 q2) = keyRepl "password"
  ∧ containsSub "abc123".data (scrub_message (pwMsg n q1 q2)) = false := by
  obtain ⟨m, rfl⟩ : ∃ m, n = m + 1 := ⟨n - 1, by omega⟩
  have hurl : subF urlRule urlRepl (pwMsg (m + 1) q1 q2) = pwMsg (m + 1) q1 q2 :=
    subF_of_noMatchAll _ _ _ (noMatchAll_url_pwMsg m q1 q2 h1 h2)
  have hlen : (pwMsg (m + 1) q1 q2).length = m + 20 := by
    simp [pwMsg]
  have hpw : subF (keyRule "password") (keyRepl "password")
      (pwMsg (m + 1) q1 q2) = keyRepl "password" := by
    have hm := matchF_pw_pwMsg m q1 q2 h1 h2
    have hshape : pwMsg (m + 1) q1 q2 =
        '"' :: ("password".data ++ ('"' :: ':' ::
          (List.replicate (m + 1) ' ' ++ q1 :: ("abc123".data ++ [q2])))) := rfl
    have htl : ("password".data ++ ('"' :: ':' ::
        (List.replicate (m + 1) ' ' ++ q1 :: ("abc123".data ++ [q2])))).length =
          m + 19 := by
      simp
    rw [hshape] at hm
    unfold subF
    rw [hlen, hshape, show m + 20 = (m + 19) + 1 from rfl]
    rw [show m + 20 = (m + 19) + 1 from rfl] at hm
    simp only [subFuel, hm]
    rw [← htl, List.drop_length]
    simp [subFuel]
  have hmain : scrub_message (pwMsg (m + 1) q1 q2) = keyRepl "password" := by
    simp only [scrub_message, scrub_patterns, List.foldl]
    rw [hurl, hpw]
    decide
  exact ⟨hmain, by rw [hmain]; decide⟩

/-- Witness for C7 amended: one space and double quotes, the scrubbed
message is the canonical redacted pair and abc123 is gone. -/
theorem c7_witness :
    scrub_message (pwMsg 1 '"' '"') = keyRepl "password"
  ∧ containsSub "abc123".data (scrub_message (pwMsg 1 '"' '"')) = false :=
  c7_redaction_with_whitespace 1 '"' '"' (by decide) (Or.inr rfl) (Or.inr rfl)

end TemplateRunner
